import Mathlib

/-!
Verification of the AOMP easyblock (easybuild/easyblocks/a/aomp.py).

The module is a configuration adapter: `configure_step` assembles two
shell-option strings from the configuration record and environment lookups,
and `post_install_step` removes the symlink the vendor install script leaves
at the install directory and promotes the real artifact directory in its
place.  The definitions below are a shallow embedding of that code:
Python string operations are embedded at the character-list level, the
filesystem is a finite map from path strings to nodes, and the fatal
`EasyBuildError` exceptions become explicit error values.
-/

set_option autoImplicit false

/-! ### Python string and truthiness primitives used by the code -/

/-- Embeds Python `s.split(sep)` for a one-character separator: the list of
(possibly empty) chunks between occurrences of `sep`. -/
def pySplit : List Char → Char → List (List Char)
  | [], _ => [[]]
  | c :: rest, sep =>
    if c = sep then [] :: pySplit rest sep
    else
      match pySplit rest sep with
      | [] => [[c]]
      | h :: t => (c :: h) :: t

/-- Embeds Python `s.replace(old, new)` for a one-character pattern `old`:
every occurrence of `pat` is replaced by `rep`. -/
def pyReplace : List Char → Char → List Char → List Char
  | [], _, _ => []
  | c :: rest, pat, rep =>
    if c = pat then rep ++ pyReplace rest pat rep
    else c :: pyReplace rest pat rep

/-- Embeds Python `a or b` on optional strings: `None` and the empty string
are falsy, so they give `b`; any other string is returned unchanged. -/
def pyOrStr (a b : Option String) : Option String :=
  match a with
  | some s => if s = "" then b else some s
  | none => b

/-- Embeds Python `a or b` where `a` is an optional list (`None` and the
empty list are falsy) and `b` is the fallback list. -/
def pyOrList (a : Option (List String)) (b : List String) : List String :=
  match a with
  | some l => if l = [] then b else l
  | none => b

/-- Embeds Python `str(x)` applied to an optional string, as done by
`'{!s}'.format(...)`: `None` prints as the string `"None"`. -/
def pyStrOpt : Option String → String
  | some s => s
  | none => "None"

/-! ### Component catalogs (module-level constants of aomp.py) -/

def AOMP_ALL_COMPONENTS : List String :=
  ["roct", "rocr", "project", "libdevice", "openmp",
   "extras", "pgmath", "flang", "flang_runtime", "comgr",
   "rocminfo", "vdi", "hipvdi", "ocl", "rocdbgapi",
   "rocgdb", "roctracer", "rocprofiler"]

def AOMP_DEFAULT_COMPONENTS : List String :=
  ["roct", "rocr", "project", "libdevice", "openmp",
   "extras", "pgmath", "flang", "flang_runtime",
   "comgr", "rocminfo"]

def AOMP_X86_COMPONENTS : List String := ["vdi", "hipvdi", "ocl"]

def AOMP_DBG_COMPONENTS : List String := ["rocdbgapi", "rocgdb"]

def AOMP_PROF_COMPONENTS : List String := ["roctracer", "rocprofiler"]

/-! ### Configuration record and ambient environment -/

/-- The ambient environment consulted by `configure_step`:
`software_root` embeds `get_software_root` (a resolvable module gives its
root path, otherwise `None`), and `buildopt_cuda_cc` embeds the global
`build_option('cuda_compute_capabilities')` value. -/
structure Env where
  software_root : String → Option String
  buildopt_cuda_cc : Option (List String)

/-- The slice of the configuration record (`self.cfg` plus `self.version`,
`self.installdir`, `self.builddir`) that the easyblock reads, together with
the three fields it writes back (`install_cmd`, `preinstallopts`,
`installopts`), kept as `Option` so that "not yet stored" is observable. -/
structure AOMPCfg where
  version : String
  installdir : String
  builddir : String
  parallel : Nat
  cuda_compute_capabilities : List String
  components : Option (List String)
  install_cmd : Option String := none
  preinstallopts : Option String := none
  installopts : Option String := none

/-! ### configure_step -/

/-- Embeds `self.version.split('.')[0]`. -/
def version_major (v : String) : String :=
  String.mk ((pySplit v.toList '.').headD [])

/-- Embeds `get_software_root('CUDA') or get_software_root('CUDAcore')`. -/
def cuda_software_root (env : Env) : Option String :=
  pyOrStr (env.software_root "CUDA") (env.software_root "CUDAcore")

/-- The message of the `EasyBuildError` raised when CUDA is loaded but no
compute capability is available. -/
def cuda_cc_error : String :=
  "CUDA module was loaded, indicating a build with CUDA, but no CUDA compute capability was specified!"

/-- Embeds the thread-count token: `NUM_THREADS=<parallel>` when
`self.cfg['parallel']` is truthy, else `NUM_THREADS=1`. -/
def num_threads_token (cfg : AOMPCfg) : String :=
  if cfg.parallel ≠ 0 then "NUM_THREADS=" ++ toString cfg.parallel
  else "NUM_THREADS=1"

/-- The `install_options` list literal of `configure_step` together with the
thread-count token appended right after it. -/
def base_install_options (env : Env) (cfg : AOMPCfg) : List String :=
  ["AOMP=" ++ cfg.installdir,
   "AOMP_REPOS=\"" ++ cfg.builddir ++ "/aomp" ++ version_major cfg.version ++ "\"",
   "AOMP_CMAKE=" ++ pyStrOpt (env.software_root "CMake") ++ "/bin/cmake",
   "AOMP_CHECK_GIT_BRANCH=0",
   "AOMP_APPLY_ROCM_PATCHES=0",
   "AOMP_STANDALONE_BUILD=1",
   num_threads_token cfg]

/-- Embeds `'NVPTXGPUS="{!s}"'.format(",".join(cc.replace('.', '') for cc))`. -/
def nvptx_token (cuda_cc : List String) : String :=
  "NVPTXGPUS=\"" ++
    String.intercalate "," (cuda_cc.map (fun cc => String.mk (pyReplace cc.toList '.' []))) ++
    "\""

/-- The full `install_options` list built by `configure_step`, or the
`EasyBuildError` raised when a CUDA module is loaded but the compute
capability list is empty in both the global build option and the recipe. -/
def install_options (env : Env) (cfg : AOMPCfg) : Except String (List String) :=
  let opts := base_install_options env cfg
  match cuda_software_root env with
  | some cuda_root =>
    if cuda_root = "" then Except.ok (opts ++ ["AOMP_BUILD_CUDA=0"])
    else
      let opts := opts ++ ["AOMP_BUILD_CUDA=1", "CUDA=\"" ++ cuda_root ++ "\""]
      let cuda_cc := pyOrList env.buildopt_cuda_cc cfg.cuda_compute_capabilities
      if cuda_cc = [] then Except.error cuda_cc_error
      else Except.ok (opts ++ [nvptx_token cuda_cc])
  | none => Except.ok (opts ++ ["AOMP_BUILD_CUDA=0"])

/-- Embeds `EB_AOMP.configure_step`: stores the fixed install command, then
either raises (second component `some` error message, derived option strings
left untouched) or stores the joined `preinstallopts` and the
`select`-prefixed `installopts` built from the component list (falling back
to `AOMP_DEFAULT_COMPONENTS` when `components` is unset or empty). -/
def configure_step (env : Env) (cfg : AOMPCfg) : AOMPCfg × Option String :=
  let cfg1 := { cfg with install_cmd := some "./aomp/bin/build_aomp.sh" }
  match install_options env cfg with
  | Except.error e => (cfg1, some e)
  | Except.ok opts =>
    let cfg2 := { cfg1 with preinstallopts := some (String.intercalate " " opts) }
    let comps := pyOrList cfg2.components AOMP_DEFAULT_COMPONENTS
    ({ cfg2 with installopts := some ("select " ++ String.intercalate " " comps) }, none)

/-! ### Filesystem model and os.path primitives for post_install_step -/

/-- A filesystem node: a symbolic link with its target path, or a real
directory or file carrying an identity marker (standing for its contents,
so that "the same directory" is observable after a rename). -/
inductive FSNode where
  | symlink (target : String)
  | dir (ident : Nat)
  | file (ident : Nat)
deriving DecidableEq

/-- A flat filesystem: each path either holds a node or nothing. -/
abbrev FS := String → Option FSNode

/-- Embeds `posixpath.basename`: everything after the last slash. -/
def posixBasename (p : String) : String :=
  String.mk ((p.toList.reverse.takeWhile (fun c => c ≠ '/')).reverse)

/-- Embeds `posixpath.dirname`: everything up to and including the last
slash, with trailing slashes stripped unless the head is all slashes. -/
def posixDirname (p : String) : String :=
  let r := p.toList.reverse
  let headRev := r.drop (r.takeWhile (fun c => c ≠ '/')).length
  if headRev.all (fun c => c = '/') then String.mk headRev.reverse
  else String.mk ((headRev.dropWhile (fun c => c = '/')).reverse)

/-- Embeds `posixpath.join` for two components. -/
def posixJoin (a b : String) : String :=
  if b.toList.take 1 = ['/'] then b
  else if a = "" then a ++ b
  else if a.toList.reverse.take 1 = ['/'] then a ++ b
  else a ++ "/" ++ b

/-- Embeds `os.path.islink`: true exactly when the path itself holds a
symbolic link (no following). -/
def os_path_islink (fs : FS) (p : String) : Bool :=
  match fs p with
  | some (FSNode.symlink _) => true
  | _ => false

/-- Embeds `os.unlink`: removes the entry at `p` (a symlink is removed, not
its target). -/
def os_unlink (fs : FS) (p : String) : FS :=
  fun q => if q = p then none else fs q

/-- Symlink resolution bound, as on Linux (ELOOP after 40 steps). -/
def MAXSYMLINKS : Nat := 40

/-- Resolves a path, following symbolic links up to the given fuel; a
dangling link or exhausted fuel gives `none`. -/
def resolvePath (fs : FS) : Nat → String → Option FSNode
  | 0, _ => none
  | fuel + 1, p =>
    match fs p with
    | some (FSNode.symlink t) => resolvePath fs fuel t
    | r => r

/-- Embeds `os.path.exists`: the path resolves (following symlinks) to some
node. -/
def os_path_exists (fs : FS) (p : String) : Bool :=
  (resolvePath fs MAXSYMLINKS p).isSome

/-- Embeds `os.path.isdir`: the path resolves (following symlinks) to a
directory. -/
def os_path_isdir (fs : FS) (p : String) : Bool :=
  match resolvePath fs MAXSYMLINKS p with
  | some (FSNode.dir _) => true
  | _ => false

/-- Embeds `os.rename src dst`: the entry at `src` is moved to `dst`. -/
def os_rename (fs : FS) (src dst : String) : FS :=
  fun q => if q = dst then fs src else if q = src then none else fs q

/-- The sibling path `'{!s}_{!s}'.format(basename(installdir), version)`
joined to `dirname(installdir)`, as computed by `post_install_step`. -/
def aomp_actual_install (installdir version : String) : String :=
  posixJoin (posixDirname installdir) (posixBasename installdir ++ "_" ++ version)

/-- The message of the `EasyBuildError` raised when the install directory is
not a symbolic link. -/
def not_symlink_error (installdir : String) : String :=
  "Expected \x27" ++ installdir ++
    "\x27 to be a symbolic link that needed to be removed, but it wasn\x27t!"

/-- The message of the `EasyBuildError` raised when the artifact directory
is missing or not a directory (note the double space, as in the source). -/
def move_error (actual installdir : String) : String :=
  "Tried to move \x27" ++ actual ++ "\x27 to \x27" ++ installdir ++
    "\x27,  but it either doesn\x27t exist or isn\x27t a directory!"

/-- Embeds `EB_AOMP.post_install_step` (after the opaque base-class call):
unlink the symlink at the install directory (or fail), then rename the
sibling artifact directory onto the install path (or fail, the symlink
staying removed).  Returns the resulting filesystem and the raised error,
if any. -/
def post_install_step (fs : FS) (installdir version : String) : FS × Option String :=
  if os_path_islink fs installdir then
    let fs1 := os_unlink fs installdir
    let actual := aomp_actual_install installdir version
    if os_path_exists fs1 actual && os_path_isdir fs1 actual then
      (os_rename fs1 actual installdir, none)
    else
      (fs1, some (move_error actual installdir))
  else
    (fs, some (not_symlink_error installdir))

/-! ### Helper lemmas about path resolution -/

theorem resolvePath_succ (fs : FS) (fuel : Nat) (p : String) :
    resolvePath fs (fuel + 1) p =
      match fs p with
      | some (FSNode.symlink t) => resolvePath fs fuel t
      | r => r := rfl

theorem resolvePath_of_dir {fs : FS} {p : String} {i : Nat}
    (h : fs p = some (FSNode.dir i)) :
    resolvePath fs MAXSYMLINKS p = some (FSNode.dir i) := by
  rw [show MAXSYMLINKS = 39 + 1 from rfl, resolvePath_succ, h]

/-- Removing an entry can only lose reachability: resolving a path after an
unlink either fails or gives the same node as before. -/
theorem resolvePath_unlink (fs : FS) (x : String) (fuel : Nat) (p : String) :
    resolvePath (os_unlink fs x) fuel p = none ∨
      resolvePath (os_unlink fs x) fuel p = resolvePath fs fuel p := by
  induction fuel generalizing p with
  | zero => exact Or.inl rfl
  | succ n ih =>
    rw [resolvePath_succ, resolvePath_succ]
    by_cases hp : p = x
    · subst hp
      have hnone : os_unlink fs p p = none := by simp [os_unlink]
      rw [hnone]
      exact Or.inl rfl
    · have hsame : os_unlink fs x p = fs p := by simp [os_unlink, hp]
      rw [hsame]
      cases hfp : fs p with
      | none => exact Or.inr rfl
      | some node =>
        cases node with
        | symlink t => exact ih t
        | dir i => exact Or.inr rfl
        | file i => exact Or.inr rfl

/-! ### Claims about post_install_step -/

/-- Claim C1: when the install-directory path is a symbolic link and the
sibling path `<basename>_<version>` holds a real directory,
`post_install_step` succeeds, the install-directory path afterwards holds
that very directory (same identity marker), and the sibling entry is gone. -/
theorem post_install_promotes (fs : FS) (installdir version target : String) (ident : Nat)
    (hlink : fs installdir = some (FSNode.symlink target))
    (hdir : fs (aomp_actual_install installdir version) = some (FSNode.dir ident)) :
    (post_install_step fs installdir version).2 = none ∧
    (post_install_step fs installdir version).1 installdir = some (FSNode.dir ident) ∧
    (post_install_step fs installdir version).1 (aomp_actual_install installdir version) = none := by
  have hne : aomp_actual_install installdir version ≠ installdir := by
    intro he
    rw [he, hlink] at hdir
    simp at hdir
  have hlink' : os_path_islink fs installdir = true := by
    simp [os_path_islink, hlink]
  have hfs1 : os_unlink fs installdir (aomp_actual_install installdir version) =
      some (FSNode.dir ident) := by
    simp [os_unlink, hne, hdir]
  have hres : resolvePath (os_unlink fs installdir) MAXSYMLINKS
      (aomp_actual_install installdir version) = some (FSNode.dir ident) :=
    resolvePath_of_dir hfs1
  have hex : os_path_exists (os_unlink fs installdir)
      (aomp_actual_install installdir version) = true := by
    simp [os_path_exists, hres]
  have hisd : os_path_isdir (os_unlink fs installdir)
      (aomp_actual_install installdir version) = true := by
    simp [os_path_isdir, hres]
  refine ⟨?_, ?_, ?_⟩ <;>
    simp [post_install_step, hlink', hex, hisd, os_rename, hne, hfs1]

def exFSLink : FS := fun p =>
  if p = "/apps/AOMP" then some (FSNode.symlink "/apps/AOMP_17.0-3")
  else if p = "/apps/AOMP_17.0-3" then some (FSNode.dir 0)
  else none

theorem post_install_promotes_witness :
    (post_install_step exFSLink "/apps/AOMP" "17.0-3").2 = none ∧
    (post_install_step exFSLink "/apps/AOMP" "17.0-3").1 "/apps/AOMP" = some (FSNode.dir 0) ∧
    (post_install_step exFSLink "/apps/AOMP" "17.0-3").1 "/apps/AOMP_17.0-3" = none := by
  have h := post_install_promotes exFSLink "/apps/AOMP" "17.0-3" "/apps/AOMP_17.0-3" 0
    (by decide) (by decide)
  have heq : aomp_actual_install "/apps/AOMP" "17.0-3" = "/apps/AOMP_17.0-3" := by decide
  rw [heq] at h
  exact h

/-- Claim C6: when the install-directory path is not a symbolic link,
`post_install_step` fails with the error naming the expected path and
leaves the filesystem entirely unchanged (no unlink, no rename). -/
theorem post_install_not_symlink (fs : FS) (installdir version : String)
    (h : os_path_islink fs installdir = false) :
    post_install_step fs installdir version = (fs, some (not_symlink_error installdir)) := by
  simp [post_install_step, h]

def exFSDir : FS := fun p => if p = "/apps/AOMP" then some (FSNode.dir 1) else none

theorem post_install_not_symlink_witness :
    post_install_step exFSDir "/apps/AOMP" "17.0-3" =
      (exFSDir, some (not_symlink_error "/apps/AOMP")) :=
  post_install_not_symlink exFSDir "/apps/AOMP" "17.0-3" (by decide)

/-- Claim C7: when the install-directory path is a symbolic link but the
sibling artifact path does not exist or is not a directory,
`post_install_step` unlinks the symlink and then fails with the error
naming both paths; the resulting state is exactly the unlinked one, so the
symlink stays removed (no rollback). -/
theorem post_install_missing_artifact (fs : FS) (installdir version target : String)
    (hlink : fs installdir = some (FSNode.symlink target))
    (hmiss : os_path_exists fs (aomp_actual_install installdir version) = false ∨
             os_path_isdir fs (aomp_actual_install installdir version) = false) :
    post_install_step fs installdir version =
      (os_unlink fs installdir,
        some (move_error (aomp_actual_install installdir version) installdir)) ∧
    (os_unlink fs installdir) installdir = none := by
  have hlink' : os_path_islink fs installdir = true := by
    simp [os_path_islink, hlink]
  have hcond : (os_path_exists (os_unlink fs installdir) (aomp_actual_install installdir version) &&
      os_path_isdir (os_unlink fs installdir) (aomp_actual_install installdir version)) = false := by
    rcases resolvePath_unlink fs installdir MAXSYMLINKS (aomp_actual_install installdir version)
      with h0 | h0
    · have hx : os_path_exists (os_unlink fs installdir)
          (aomp_actual_install installdir version) = false := by
        simp [os_path_exists, h0]
      simp [hx]
    · rcases hmiss with hm | hm
      · have hx : os_path_exists (os_unlink fs installdir)
            (aomp_actual_install installdir version) = false := by
          unfold os_path_exists at hm ⊢
          rw [h0]
          exact hm
        simp [hx]
      · have hx : os_path_isdir (os_unlink fs installdir)
            (aomp_actual_install installdir version) = false := by
          unfold os_path_isdir at hm ⊢
          rw [h0]
          exact hm
        simp [hx]
  constructor
  · simp [post_install_step, hlink', hcond]
  · simp [os_unlink]

def exFSDangling : FS := fun p =>
  if p = "/apps/AOMP" then some (FSNode.symlink "gone") else none

theorem post_install_missing_artifact_witness :
    post_install_step exFSDangling "/apps/AOMP" "17.0-3" =
      (os_unlink exFSDangling "/apps/AOMP",
        some (move_error "/apps/AOMP_17.0-3" "/apps/AOMP")) ∧
    (os_unlink exFSDangling "/apps/AOMP") "/apps/AOMP" = none := by
  have h := post_install_missing_artifact exFSDangling "/apps/AOMP" "17.0-3" "gone"
    (by decide) (Or.inl (by decide))
  have heq : aomp_actual_install "/apps/AOMP" "17.0-3" = "/apps/AOMP_17.0-3" := by decide
  rw [heq] at h
  exact h

/-! ### Helper lemmas about the Python string primitives -/

theorem pySplit_ne_nil (l : List Char) (sep : Char) : pySplit l sep ≠ [] := by
  cases l with
  | nil => simp [pySplit]
  | cons c rest =>
    simp only [pySplit]
    by_cases h : c = sep
    · simp [h]
    · simp only [h, if_false]
      cases pySplit rest sep <;> simp

/-- The first chunk of a Python split is the leading run of non-separator
characters. -/
theorem pySplit_headD (l : List Char) (sep : Char) :
    (pySplit l sep).headD [] = l.takeWhile (fun c => c ≠ sep) := by
  induction l with
  | nil => rfl
  | cons c rest ih =>
    by_cases h : c = sep
    · subst h
      simp [pySplit, List.takeWhile_cons]
    · cases hps : pySplit rest sep with
      | nil => exact absurd hps (pySplit_ne_nil rest sep)
      | cons hd tl =>
        rw [hps] at ih
        simp only [List.headD_cons] at ih
        simp [pySplit, h, hps, List.takeWhile_cons, ih]

/-- Replacing a character by the empty string removes all its occurrences. -/
theorem pyReplace_nil_eq_filter (l : List Char) (pat : Char) :
    pyReplace l pat [] = l.filter (fun c => c ≠ pat) := by
  induction l with
  | nil => rfl
  | cons c rest ih =>
    by_cases h : c = pat
    · subst h
      simp [pyReplace, ih, List.filter_cons]
    · simp [pyReplace, h, ih, List.filter_cons]

/-! ### Example environments and configurations used by the witnesses -/

def exEnvNoCuda : Env :=
  ⟨fun n => if n = "CMake" then some "/sw/cmake" else none, none⟩

def exEnvCuda : Env :=
  ⟨fun n =>
    if n = "CMake" then some "/sw/cmake"
    else if n = "CUDA" then some "/sw/cuda"
    else none,
   none⟩

def exCfg : AOMPCfg :=
  { version := "17.0-3", installdir := "/apps/AOMP", builddir := "/build",
    parallel := 8, cuda_compute_capabilities := [], components := none }

def exCfgCC : AOMPCfg := { exCfg with cuda_compute_capabilities := ["7.0", "8.6"] }

def exCfgEmptyComps : AOMPCfg := { exCfg with components := some [] }

def exOptsNoCuda : List String :=
  ["AOMP=/apps/AOMP", "AOMP_REPOS=\"/build/aomp17\"", "AOMP_CMAKE=/sw/cmake/bin/cmake",
   "AOMP_CHECK_GIT_BRANCH=0", "AOMP_APPLY_ROCM_PATCHES=0", "AOMP_STANDALONE_BUILD=1",
   "NUM_THREADS=8", "AOMP_BUILD_CUDA=0"]

/-! ### Claims about configure_step -/

/-- Claim C2: when a CUDA module resolves but the compute-capability list is
empty in both the global build option and the recipe, `configure_step`
raises the capability error and stores neither derived option string (the
`preinstallopts` and `installopts` fields keep their incoming values). -/
theorem configure_cuda_cc_missing (env : Env) (cfg : AOMPCfg) (root : String)
    (hroot : cuda_software_root env = some root) (hr : root ≠ "")
    (hglobal : env.buildopt_cuda_cc = none ∨ env.buildopt_cuda_cc = some [])
    (hcfg : cfg.cuda_compute_capabilities = []) :
    (configure_step env cfg).2 = some cuda_cc_error ∧
    (configure_step env cfg).1.preinstallopts = cfg.preinstallopts ∧
    (configure_step env cfg).1.installopts = cfg.installopts := by
  have hcc : pyOrList env.buildopt_cuda_cc cfg.cuda_compute_capabilities = [] := by
    rcases hglobal with h | h <;> simp [pyOrList, h, hcfg]
  have hio : install_options env cfg = Except.error cuda_cc_error := by
    simp [install_options, hroot, hr, hcc]
  refine ⟨?_, ?_, ?_⟩ <;> simp [configure_step, hio]

theorem configure_cuda_cc_missing_witness :
    (configure_step exEnvCuda exCfg).2 = some cuda_cc_error ∧
    (configure_step exEnvCuda exCfg).1.preinstallopts = none ∧
    (configure_step exEnvCuda exCfg).1.installopts = none :=
  configure_cuda_cc_missing exEnvCuda exCfg "/sw/cuda" (by decide) (by decide)
    (Or.inl rfl) rfl

/-- Claim C3: when the `components` option is unset and `configure_step`
completes without error, the stored install-options string is exactly the
`select` line over the 11 default components, in order. -/
theorem configure_default_components (env : Env) (cfg : AOMPCfg)
    (hcomp : cfg.components = none)
    (hok : (configure_step env cfg).2 = none) :
    (configure_step env cfg).1.installopts =
      some "select roct rocr project libdevice openmp extras pgmath flang flang_runtime comgr rocminfo" := by
  cases hio : install_options env cfg with
  | error e => simp [configure_step, hio] at hok
  | ok opts =>
    have h : (configure_step env cfg).1.installopts =
        some ("select " ++ String.intercalate " " AOMP_DEFAULT_COMPONENTS) := by
      simp [configure_step, hio, pyOrList, hcomp]
    rw [h]
    rfl

theorem configure_default_components_witness :
    (configure_step exEnvNoCuda exCfg).1.installopts =
      some "select roct rocr project libdevice openmp extras pgmath flang flang_runtime comgr rocminfo" :=
  configure_default_components exEnvNoCuda exCfg rfl rfl

/-- Claim C10: a `components` option explicitly set to the empty list is
treated exactly like an unset one (the code tests falsiness, not absence):
the stored fields agree with the unset-`components` run, and on a
completing run the install-options string is the default `select` line. -/
theorem configure_empty_components (env : Env) (cfg : AOMPCfg)
    (h : cfg.components = some []) :
    (configure_step env cfg).1.installopts =
      (configure_step env { cfg with components := none }).1.installopts ∧
    (configure_step env cfg).2 = (configure_step env { cfg with components := none }).2 ∧
    ((configure_step env cfg).2 = none →
      (configure_step env cfg).1.installopts =
        some "select roct rocr project libdevice openmp extras pgmath flang flang_runtime comgr rocminfo") := by
  have hio : install_options env { cfg with components := none } = install_options env cfg := rfl
  cases hoi : install_options env cfg with
  | error e =>
    refine ⟨?_, ?_, ?_⟩
    · simp [configure_step, hio, hoi]
    · simp [configure_step, hio, hoi]
    · intro hok
      simp [configure_step, hoi] at hok
  | ok opts =>
    refine ⟨?_, ?_, ?_⟩
    · simp [configure_step, hio, hoi, pyOrList, h]
    · simp [configure_step, hio, hoi]
    · intro _
      have hsel : (configure_step env cfg).1.installopts =
          some ("select " ++ String.intercalate " " AOMP_DEFAULT_COMPONENTS) := by
        simp [configure_step, hoi, pyOrList, h]
      rw [hsel]
      rfl

theorem configure_empty_components_witness :
    (configure_step exEnvNoCuda exCfgEmptyComps).1.installopts =
      (configure_step exEnvNoCuda { exCfgEmptyComps with components := none }).1.installopts ∧
    (configure_step exEnvNoCuda exCfgEmptyComps).2 =
      (configure_step exEnvNoCuda { exCfgEmptyComps with components := none }).2 ∧
    ((configure_step exEnvNoCuda exCfgEmptyComps).2 = none →
      (configure_step exEnvNoCuda exCfgEmptyComps).1.installopts =
        some "select roct rocr project libdevice openmp extras pgmath flang flang_runtime comgr rocminfo") :=
  configure_empty_components exEnvNoCuda exCfgEmptyComps rfl

/-- Case analysis of a non-raising `configure_step` option list: it is the
base list followed either by the CUDA-disabling token or by the three
CUDA tokens. -/
theorem install_options_cases (env : Env) (cfg : AOMPCfg) (opts : List String)
    (hok : install_options env cfg = Except.ok opts) :
    opts = base_install_options env cfg ++ ["AOMP_BUILD_CUDA=0"] ∨
    ∃ r, cuda_software_root env = some r ∧ r ≠ "" ∧
      pyOrList env.buildopt_cuda_cc cfg.cuda_compute_capabilities ≠ [] ∧
      opts = base_install_options env cfg ++
        ["AOMP_BUILD_CUDA=1", "CUDA=\"" ++ r ++ "\"",
         nvptx_token (pyOrList env.buildopt_cuda_cc cfg.cuda_compute_capabilities)] := by
  cases hroot : cuda_software_root env with
  | none =>
    simp only [install_options, hroot] at hok
    simp at hok
    exact Or.inl hok.symm
  | some r =>
    by_cases hr : r = ""
    · simp only [install_options, hroot, hr, if_pos rfl] at hok
      simp at hok
      exact Or.inl hok.symm
    · by_cases hcc : pyOrList env.buildopt_cuda_cc cfg.cuda_compute_capabilities = []
      · simp [install_options, hroot, hr, hcc] at hok
      · simp only [install_options, hroot, if_neg hr, hcc, if_neg hcc] at hok
        simp at hok
        refine Or.inr ⟨r, rfl, hr, hcc, ?_⟩
        rw [← hok]

/-- Claim C4: with a CUDA root resolved and a nonempty effective
compute-capability list, `configure_step` appends as its last pre-install
token the quoted `NVPTXGPUS` value; the token is exactly the capability
strings with every dot removed, joined by commas, and it lands in the
stored `preinstallopts` string. -/
theorem configure_nvptx (env : Env) (cfg : AOMPCfg) (root : String) (ccs : List String)
    (hroot : cuda_software_root env = some root) (hr : root ≠ "")
    (hcc : pyOrList env.buildopt_cuda_cc cfg.cuda_compute_capabilities = ccs)
    (hne : ccs ≠ []) :
    install_options env cfg =
      Except.ok (base_install_options env cfg ++
        ["AOMP_BUILD_CUDA=1", "CUDA=\"" ++ root ++ "\"", nvptx_token ccs]) ∧
    nvptx_token ccs =
      "NVPTXGPUS=\"" ++
        String.intercalate ","
          (ccs.map (fun cc => String.mk (cc.toList.filter (fun c => c ≠ '.')))) ++
        "\"" ∧
    (configure_step env cfg).1.preinstallopts =
      some (String.intercalate " " (base_install_options env cfg ++
        ["AOMP_BUILD_CUDA=1", "CUDA=\"" ++ root ++ "\"", nvptx_token ccs])) := by
  have hio : install_options env cfg =
      Except.ok (base_install_options env cfg ++
        ["AOMP_BUILD_CUDA=1", "CUDA=\"" ++ root ++ "\"", nvptx_token ccs]) := by
    simp [install_options, hroot, hr, hcc, hne]
  refine ⟨hio, ?_, ?_⟩
  · simp [nvptx_token, pyReplace_nil_eq_filter]
  · simp [configure_step, hio]

theorem configure_nvptx_witness :
    install_options exEnvCuda exCfgCC =
      Except.ok (base_install_options exEnvCuda exCfgCC ++
        ["AOMP_BUILD_CUDA=1", "CUDA=\"/sw/cuda\"", nvptx_token ["7.0", "8.6"]]) ∧
    nvptx_token ["7.0", "8.6"] = "NVPTXGPUS=\"70,86\"" := by
  have h := configure_nvptx exEnvCuda exCfgCC "/sw/cuda" ["7.0", "8.6"]
    (by decide) (by decide) rfl (by decide)
  exact ⟨h.1, h.2.1.trans (by decide)⟩

/-- Two character lists differing at their heads are different. -/
theorem char_cons_ne {c d : Char} (h : c ≠ d) (l m : List Char) : c :: l ≠ d :: m := by
  intro hx
  injection hx with h1 _
  exact h h1

/-- The thread-count token always starts with the eleven characters
`NUM_THREADS`, whichever branch produced it. -/
theorem num_threads_token_take9 (cfg : AOMPCfg) :
    (num_threads_token cfg).toList.take 9 = ['N', 'U', 'M', '_', 'T', 'H', 'R', 'E', 'A'] := by
  unfold num_threads_token
  by_cases hp : cfg.parallel ≠ 0
  · rw [if_pos hp]
    rfl
  · rw [if_neg hp]
    rfl

/-- Claim C5: when neither the CUDA nor the CUDAcore module resolves, the
derived option list carries `AOMP_BUILD_CUDA=0`, no token starts with
`NVPTXGPUS`, and the joined list is what `configure_step` stores as the
pre-install options string. -/
theorem configure_no_cuda (env : Env) (cfg : AOMPCfg) (opts : List String)
    (h1 : env.software_root "CUDA" = none)
    (h2 : env.software_root "CUDAcore" = none)
    (hok : install_options env cfg = Except.ok opts) :
    "AOMP_BUILD_CUDA=0" ∈ opts ∧
    (∀ t ∈ opts, t.toList.take 9 ≠ "NVPTXGPUS".toList) ∧
    (configure_step env cfg).1.preinstallopts = some (String.intercalate " " opts) := by
  have hroot : cuda_software_root env = none := by
    simp [cuda_software_root, pyOrStr, h1, h2]
  have hopts : opts = base_install_options env cfg ++ ["AOMP_BUILD_CUDA=0"] := by
    simp only [install_options, hroot] at hok
    simp at hok
    exact hok.symm
  have hpre : (configure_step env cfg).1.preinstallopts =
      some (String.intercalate " " opts) := by
    simp [configure_step, hok]
  refine ⟨?_, ?_, hpre⟩
  · rw [hopts]
    exact List.mem_append_right _ (by simp)
  · intro t ht
    rw [hopts] at ht
    simp only [base_install_options, List.mem_append, List.mem_cons,
      List.not_mem_nil, or_false] at ht
    rcases ht with ⟨rfl | rfl | rfl | rfl | rfl | rfl | rfl⟩ | rfl
    · exact char_cons_ne (by decide) _ _
    · exact char_cons_ne (by decide) _ _
    · exact char_cons_ne (by decide) _ _
    · decide
    · decide
    · decide
    · rw [num_threads_token_take9]
      decide
    · decide

theorem configure_no_cuda_witness :
    "AOMP_BUILD_CUDA=0" ∈ exOptsNoCuda ∧
    (configure_step exEnvNoCuda exCfg).1.preinstallopts =
      some (String.intercalate " " exOptsNoCuda) := by
  have h := configure_no_cuda exEnvNoCuda exCfg exOptsNoCuda rfl rfl rfl
  exact ⟨h.1, h.2.2⟩

/-- Claim C8: `version_major` of `"17.0-3"` is `"17"`; in general it is the
part of the version string before its first dot, and it is interpolated
into the quoted `AOMP_REPOS` token of every derived option list. -/
theorem version_major_spec :
    version_major "17.0-3" = "17" ∧
    (∀ v : String, version_major v = String.mk (v.toList.takeWhile (fun c => c ≠ '.'))) ∧
    (∀ (env : Env) (cfg : AOMPCfg) (opts : List String),
      install_options env cfg = Except.ok opts →
      ("AOMP_REPOS=\"" ++ cfg.builddir ++ "/aomp" ++ version_major cfg.version ++ "\"") ∈ opts) := by
  refine ⟨by decide, fun v => ?_, fun env cfg opts hok => ?_⟩
  · unfold version_major
    rw [pySplit_headD]
  · rcases install_options_cases env cfg opts hok with hsh | ⟨r, _, _, _, hsh⟩ <;>
      (rw [hsh]; refine List.mem_append_left _ ?_; simp [base_install_options])

theorem version_major_spec_witness :
    version_major "17.0-3" = "17" ∧
    "AOMP_REPOS=\"/build/aomp17\"" ∈ exOptsNoCuda := by
  have h := version_major_spec
  exact ⟨h.1, h.2.2 exEnvNoCuda exCfg exOptsNoCuda rfl⟩

/-- Claim C9: every completing run derives exactly one thread-count token:
`NUM_THREADS=<parallel>` when the parallelism value is truthy (nonzero) and
`NUM_THREADS=1` otherwise, and the joined list is stored as the pre-install
options string. -/
theorem configure_num_threads (env : Env) (cfg : AOMPCfg) (opts : List String)
    (hok : install_options env cfg = Except.ok opts) :
    opts.filter (fun t => t.toList.take 12 == "NUM_THREADS=".toList) =
      [num_threads_token cfg] ∧
    num_threads_token cfg =
      (if cfg.parallel ≠ 0 then "NUM_THREADS=" ++ toString cfg.parallel
       else "NUM_THREADS=1") ∧
    (configure_step env cfg).1.preinstallopts = some (String.intercalate " " opts) := by
  have hpre : (configure_step env cfg).1.preinstallopts =
      some (String.intercalate " " opts) := by
    simp [configure_step, hok]
  refine ⟨?_, rfl, hpre⟩
  by_cases hp : cfg.parallel ≠ 0
  · have hnt : num_threads_token cfg = "NUM_THREADS=" ++ toString cfg.parallel := by
      rw [num_threads_token, if_pos hp]
    rcases install_options_cases env cfg opts hok with hsh | ⟨r, _, _, _, hsh⟩ <;>
      (rw [hsh]; simp only [base_install_options]; rw [hnt]; rfl)
  · have hnt : num_threads_token cfg = "NUM_THREADS=1" := by
      rw [num_threads_token, if_neg hp]
    rcases install_options_cases env cfg opts hok with hsh | ⟨r, _, _, _, hsh⟩ <;>
      (rw [hsh]; simp only [base_install_options]; rw [hnt]; rfl)

theorem configure_num_threads_witness :
    exOptsNoCuda.filter (fun t => t.toList.take 12 == "NUM_THREADS=".toList) =
      [num_threads_token exCfg] ∧
    num_threads_token exCfg =
      (if exCfg.parallel ≠ 0 then "NUM_THREADS=" ++ toString exCfg.parallel
       else "NUM_THREADS=1") ∧
    (configure_step exEnvNoCuda exCfg).1.preinstallopts =
      some (String.intercalate " " exOptsNoCuda) :=
  configure_num_threads exEnvNoCuda exCfg exOptsNoCuda rfl
